import Mathlib

/-!
Shallow embedding of the COI-tracker system (src/main.py and src/nag_engine.py).

The repository's ingestion path (`process_coi_webhook`, `download_file_from_supabase`,
`extract_data_with_gemini_raw`) and its nag cycle (`get_expiring_policies`, `send_email`)
are translated here as pure Lean functions.  External collaborators (Supabase storage,
the Gemini HTTP endpoint, the Postgres datastore, the email provider) are modelled as
explicit environment values supplying each collaborator's response; Python dictionaries
decoded from JSON are modelled by the `Json` type below, with Python truthiness and
subscript/`.get` semantics reproduced explicitly.
-/

namespace COI

/-- A JSON value as produced by Python's `json.loads` / consumed by the pipeline.
Numbers are kept unevaluated as `mant * 10 ^ (-scale)` so that equality is structural;
no claim compares JSON numbers numerically. -/
inductive Json where
  | obj (kvs : List (String × Json))
  | arr (xs : List Json)
  | num (mant : Int) (scale : Int)
  | str (s : String)
  | bool (b : Bool)
  | null

/-- Python truthiness of a decoded JSON value: `None`, `False`, `0`, `""`, `[]`, `{}`
are falsy, everything else truthy. -/
def truthy : Json → Bool
  | .null => false
  | .bool b => b
  | .num m _ => m != 0
  | .str s => s != ""
  | .arr xs => !xs.isEmpty
  | .obj kvs => !kvs.isEmpty

/-- Python exception values that can arise in the embedded code.  The attached
strings model `str(e)` payloads where the code observes them. -/
inductive PyExc where
  | keyError (k : String)
  | indexError
  | typeError
  | attrError
  | jsonDecodeError
  | httpException (detail : String)
  | valueError (msg : String)
  | dbError (msg : String)
deriving Repr, DecidableEq

/-- `str(e)` as observed by the webhook handler when building the error response.
`str(KeyError(k))` is the repr-quoted key; starlette's `HTTPException.__str__` is
`"{status_code}: {detail}"` with status 500 here; other messages are carried verbatim
(schematic text for `TypeError` / `AttributeError`, whose exact wording the code never
inspects). -/
def excMsg : PyExc → String
  | .keyError k => "'" ++ k ++ "'"
  | .indexError => "list index out of range"
  | .typeError => "TypeError"
  | .attrError => "AttributeError"
  | .jsonDecodeError => "Expecting value"
  | .httpException d => "500: " ++ d
  | .valueError m => m
  | .dbError m => m

/-- Python `d[k]` on a decoded JSON value: a string subscript succeeds only on a dict
with that key (`KeyError` when absent); on a list or string it is a `TypeError`
(string indices must be integers), likewise on scalars. -/
def pySubscript (v : Json) (k : String) : Except PyExc Json :=
  match v with
  | .obj kvs =>
    match kvs.find? (fun p => p.1 == k) with
    | some p => .ok p.2
    | none => .error (.keyError k)
  | _ => .error .typeError

/-- Python `d[0]` on a decoded JSON value: first element of a list (`IndexError` when
empty), first character of a string, `KeyError` on a dict (JSON object keys are
strings, so integer lookup misses), `TypeError` on scalars. -/
def pyIndexZero (v : Json) : Except PyExc Json :=
  match v with
  | .arr [] => .error .indexError
  | .arr (x :: _) => .ok x
  | .obj _ => .error (.keyError "0")
  | .str s =>
    match s.toList with
    | [] => .error .indexError
    | c :: _ => .ok (.str (String.mk [c]))
  | _ => .error .typeError

/-- Python `record[k]` on a webhook record, which is a dict. -/
def pyDictSubscript (kvs : List (String × Json)) (k : String) : Except PyExc Json :=
  match kvs.find? (fun p => p.1 == k) with
  | some p => .ok p.2
  | none => .error (.keyError k)

/-- Python `d.get(k)` on a dict: the stored value, or `None` when the key is absent.
A stored JSON `null` and an absent key both come back as Python `None`, so both map
to `Json.null`. -/
def pyGet (kvs : List (String × Json)) (k : String) : Json :=
  match kvs.find? (fun p => p.1 == k) with
  | some p => p.2
  | none => .null

/-- A calendar date as compared by Python `datetime.date`: lexicographic on
(year, month, day). -/
structure YMD where
  y : Nat
  m : Nat
  d : Nat
deriving Repr, DecidableEq

/-- Python `date` strict comparison `a < b` (lexicographic on the components). -/
def ymdLt (a b : YMD) : Bool :=
  a.y < b.y || (a.y == b.y && (a.m < b.m || (a.m == b.m && a.d < b.d)))

def isDigitCh (c : Char) : Bool := decide ('0' ≤ c ∧ c ≤ '9')

def digitVal (c : Char) : Nat := c.toNat - '0'.toNat

/-- Gregorian leap year, as used by Python's `datetime` validity check. -/
def isLeap (y : Nat) : Bool := (y % 4 == 0 && y % 100 != 0) || y % 400 == 0

def daysInMonth (y m : Nat) : Nat :=
  if m == 2 then (if isLeap y then 29 else 28)
  else if m == 4 || m == 6 || m == 9 || m == 11 then 30
  else 31

/-- The month field of CPython's `strptime` directive `%m`, whose regex is
`1[0-2]|0[1-9]|[1-9]` tried in that alternation order with no end anchor:
returns the parsed month and the remaining characters. -/
def parseMonthField : List Char → Option (Nat × List Char)
  | '1' :: c :: rest =>
    if '0' ≤ c && c ≤ '2' then some (10 + digitVal c, rest)
    else some (1, c :: rest)
  | '0' :: c :: rest =>
    if '1' ≤ c && c ≤ '9' then some (digitVal c, rest) else none
  | c :: rest =>
    if '1' ≤ c && c ≤ '9' then some (digitVal c, rest) else none
  | [] => none

/-- The day field of CPython's `strptime` directive `%d`, regex
`3[01]|[12]\d|0[1-9]|[1-9]` in alternation order. -/
def parseDayField : List Char → Option (Nat × List Char)
  | '3' :: c :: rest =>
    if c == '0' || c == '1' then some (30 + digitVal c, rest)
    else some (3, c :: rest)
  | c1 :: c :: rest =>
    if (c1 == '1' || c1 == '2') && isDigitCh c then
      some (10 * digitVal c1 + digitVal c, rest)
    else if c1 == '0' then
      (if '1' ≤ c && c ≤ '9' then some (digitVal c, rest) else none)
    else if '1' ≤ c1 && c1 ≤ '9' then some (digitVal c1, c :: rest)
    else none
  | [c] => if '1' ≤ c && c ≤ '9' then some (digitVal c, []) else none
  | [] => none

/-- `datetime.strptime(s, "%Y-%m-%d").date()` from main.py line 163: `%Y` is exactly
four digits, the separators are literal hyphens, any unconverted trailing data raises
`ValueError`, and the resulting (y, m, d) must be a valid `datetime` date
(`MINYEAR = 1`, day within the month).  `none` models the `ValueError` outcome. -/
def parseYMD (s : String) : Option YMD :=
  match s.toList with
  | c1 :: c2 :: c3 :: c4 :: '-' :: rest =>
    if isDigitCh c1 && isDigitCh c2 && isDigitCh c3 && isDigitCh c4 then
      let y := ((digitVal c1 * 10 + digitVal c2) * 10 + digitVal c3) * 10 + digitVal c4
      match parseMonthField rest with
      | some (m, '-' :: rest2) =>
        match parseDayField rest2 with
        | some (d, []) =>
          if 1 ≤ y && d ≤ daysInMonth y m then some ⟨y, m, d⟩ else none
        | _ => none
      | _ => none
    else none
  | _ => none

/-- The "Validate Dates" block of `process_coi_webhook` (main.py lines 157-169),
as a function of the raw `extracted_data.get("policy_expiration_date")` value and
of `datetime.now().date()`.  A falsy value (None / empty string / 0 / ...) yields
status `"error"`; a truthy string is fed to `strptime`, where a parse failure
(`ValueError`) yields `"error"`, a date before today yields `"rejected"` and any
other date keeps the initial `"active"`; a truthy non-string raises `TypeError`
out of the block (`strptime` rejects the argument type, and `except ValueError`
does not catch it). -/
def resolveStatus (expVal : Json) (today : YMD) : Except PyExc String :=
  if truthy expVal then
    match expVal with
    | .str s =>
      match parseYMD s with
      | some d => .ok (if ymdLt d today then "rejected" else "active")
      | none => .ok "error"
    | _ => .error .typeError
  else .ok "error"

/-- One left-to-right pass of Python `str.replace(pat, rep)` over a character list:
every non-overlapping occurrence of the pattern `p :: ps` is replaced.  The fuel
argument only bounds the recursion structurally (each step consumes at least one
character, so `length + 1` fuel is always enough); it keeps the definition
kernel-reducible. -/
def replaceAll (fuel : Nat) (p : Char) (ps : List Char) (rep : List Char)
    (l : List Char) : List Char :=
  match fuel, l with
  | 0, l => l
  | _ + 1, [] => []
  | fuel + 1, c :: rest =>
    if c == p && List.isPrefixOf ps rest then
      rep ++ replaceAll fuel p ps rep (rest.drop ps.length)
    else
      c :: replaceAll fuel p ps rep rest

/-- Python `s.replace(pat, rep)` (an empty pattern is never used by the code). -/
def replaceAllStr (s pat rep : String) : String :=
  match pat.toList with
  | [] => s
  | p :: ps => String.mk (replaceAll (s.length + 1) p ps rep.toList s.toList)

/-- The whitespace set of Python `str.strip()`. -/
def isPySpace (c : Char) : Bool :=
  [' ', '\t', '\n', '\r', '\x0B', '\x0C'].contains c

/-- Python `s.strip()`: drop whitespace from both ends. -/
def pyStrip (s : String) : String :=
  String.mk (((s.toList.dropWhile isPySpace).reverse.dropWhile isPySpace).reverse)

/-- The cleanup applied to a model reply at main.py line 128:
`text.replace("```json", "").replace("```", "").strip()`. -/
def cleanText (t : String) : String :=
  pyStrip (replaceAllStr (replaceAllStr t "```json" "") "```" "")

/-- JSON whitespace skipped by the parser. -/
def jskipWs (cs : List Char) : List Char :=
  cs.dropWhile (fun c => [' ', '\t', '\n', '\r'].contains c)

/-- JSON string escape characters handled by this model of `json.loads`
(the `\uXXXX` form is outside the modelled subset). -/
def escChar : Char → Option Char
  | 'n' => some '\n'
  | 't' => some '\t'
  | 'r' => some '\r'
  | 'b' => some '\x08'
  | 'f' => some '\x0C'
  | '/' => some '/'
  | '"' => some '"'
  | '\\' => some '\\'
  | _ => none

/-- Body of a JSON string literal, after the opening quote: returns the decoded
characters and the input remaining after the closing quote. -/
def jstringAux : List Char → Option (List Char × List Char)
  | [] => none
  | '"' :: rest => some ([], rest)
  | '\\' :: c :: rest =>
    match escChar c with
    | some e => (jstringAux rest).map (fun p => (e :: p.1, p.2))
    | none => none
  | c :: rest =>
    if c.toNat < 32 then none
    else (jstringAux rest).map (fun p => (c :: p.1, p.2))

def splitDigits (cs : List Char) : List Char × List Char := cs.span isDigitCh

def natOfDigits (ds : List Char) : Nat :=
  ds.foldl (fun a c => a * 10 + digitVal c) 0

/-- Exponent part of a JSON number, after the `e`/`E`. -/
def jexp (cs : List Char) : Option (Int × List Char) :=
  let (esign, cs1) :=
    match cs with
    | '+' :: r => ((1 : Int), r)
    | '-' :: r => ((-1 : Int), r)
    | _ => ((1 : Int), cs)
  let (eds, r) := splitDigits cs1
  if eds.isEmpty then none else some (esign * Int.ofNat (natOfDigits eds), r)

/-- A JSON number per RFC 8259 grammar (optional sign, no leading zeros, optional
fraction and exponent), yielding an unevaluated mantissa/scale pair. -/
def jnumber (cs : List Char) : Option (Json × List Char) :=
  let (sign, cs1) :=
    match cs with
    | '-' :: r => ((-1 : Int), r)
    | _ => ((1 : Int), cs)
  let (ids, r1) := splitDigits cs1
  if ids.isEmpty then none
  else if ids.length > 1 && ids.head? == some '0' then none
  else
    let fracRes : Option (List Char × List Char) :=
      match r1 with
      | '.' :: r =>
        let (fds, r2) := splitDigits r
        if fds.isEmpty then none else some (fds, r2)
      | _ => some ([], r1)
    match fracRes with
    | none => none
    | some (fds, r2) =>
      let expRes : Option (Int × List Char) :=
        match r2 with
        | 'e' :: r => jexp r
        | 'E' :: r => jexp r
        | _ => some (0, r2)
      match expRes with
      | none => none
      | some (ex, r3) =>
        some (.num (sign * Int.ofNat (natOfDigits (ids ++ fds))) (Int.ofNat fds.length - ex), r3)

/-- Insertion into a Python dict under construction: a repeated key overwrites the
stored value in place (insertion position of the first occurrence is kept). -/
def dictInsert (kvs : List (String × Json)) (k : String) (v : Json) : List (String × Json) :=
  match kvs with
  | [] => [(k, v)]
  | (k1, v1) :: rest => if k1 == k then (k1, v) :: rest else (k1, v1) :: dictInsert rest k v

/-- Members of a JSON object folded into a Python dict (last duplicate wins). -/
def buildDict (ms : List (String × Json)) : List (String × Json) :=
  ms.foldl (fun acc p => dictInsert acc p.1 p.2) []

/-- Strip a literal keyword from the front of the input. -/
def stripKeyword (kw : String) (cs : List Char) : Option (List Char) :=
  if kw.toList.isPrefixOf cs then some (cs.drop kw.length) else none

/-- The three JSON literal keywords. -/
def jlit (cs : List Char) : Option (Json × List Char) :=
  match stripKeyword "null" cs with
  | some r => some (.null, r)
  | none =>
    match stripKeyword "true" cs with
    | some r => some (.bool true, r)
    | none =>
      match stripKeyword "false" cs with
      | some r => some (.bool false, r)
      | none => none

mutual

/-- Recursive-descent JSON value parser modelling Python `json.loads` on the
practical subset used by the pipeline (no `\uXXXX` escapes, no NaN/Infinity).
Fuel bounds the recursion; `jsonLoads` supplies enough for any input. -/
def jparse : Nat → List Char → Option (Json × List Char)
  | 0, _ => none
  | fuel + 1, cs =>
    let cs0 := jskipWs cs
    match jlit cs0 with
    | some res => some res
    | none =>
      match cs0 with
      | '"' :: rest => (jstringAux rest).map (fun p => (.str (String.mk p.1), p.2))
      | '[' :: rest =>
        (match jskipWs rest with
         | ']' :: r2 => some (.arr [], r2)
         | cs2 => (jelems fuel cs2).map (fun p => (.arr p.1, p.2)))
      | '\x7B' :: rest =>
        (match jskipWs rest with
         | '\x7D' :: r2 => some (.obj [], r2)
         | cs2 => (jmembers fuel cs2).map (fun p => (.obj (buildDict p.1), p.2)))
      | c :: _ => if c == '-' || isDigitCh c then jnumber cs0 else none
      | [] => none

/-- Elements of a nonempty JSON array, up to and including the closing bracket. -/
def jelems : Nat → List Char → Option (List Json × List Char)
  | 0, _ => none
  | fuel + 1, cs =>
    match jparse fuel cs with
    | none => none
    | some (v, rest) =>
      match jskipWs rest with
      | ',' :: r2 => (jelems fuel r2).map (fun p => (v :: p.1, p.2))
      | ']' :: r2 => some ([v], r2)
      | _ => none

/-- Members of a nonempty JSON object, up to and including the closing brace. -/
def jmembers : Nat → List Char → Option (List (String × Json) × List Char)
  | 0, _ => none
  | fuel + 1, cs =>
    match jskipWs cs with
    | '"' :: rest =>
      (match jstringAux rest with
       | none => none
       | some (kcs, r1) =>
         match jskipWs r1 with
         | ':' :: r2 =>
           (match jparse fuel r2 with
            | none => none
            | some (v, r3) =>
              match jskipWs r3 with
              | ',' :: r4 => (jmembers fuel r4).map (fun p => ((String.mk kcs, v) :: p.1, p.2))
              | '\x7D' :: r4 => some ([(String.mk kcs, v)], r4)
              | _ => none)
         | _ => none)
    | _ => none

end

/-- Python `json.loads`: parse one JSON value and require that only whitespace
remains. -/
def jsonLoads (s : String) : Option Json :=
  match jparse (2 * s.length + 8) s.toList with
  | some (v, rest) => if (jskipWs rest).isEmpty then some v else none
  | none => none

/-- MIME type inference of `extract_data_with_gemini_raw` (main.py lines 57-63):
suffix-based on the lowercased path, defaulting to PDF. -/
def inferMime (file_path : String) : String :=
  let lower_path := file_path.toLower
  if lower_path.endsWith ".png" then "image/png"
  else if lower_path.endsWith ".jpg" || lower_path.endsWith ".jpeg" then "image/jpeg"
  else "application/pdf"

/-- The hardwired ordered candidate list of main.py lines 69-74. -/
def target_models : List String :=
  ["gemini-2.5-flash-preview-09-2025",
   "gemini-2.5-flash",
   "gemini-1.5-flash-latest",
   "gemini-1.5-flash"]

/-- The provider's response to one candidate request, as observed by the loop body
of main.py lines 113-139: a 404 status, an HTTP error status raised by
`raise_for_status` (carrying `e.response.text`), a transport-level failure caught
by the generic handler (carrying `str(e)`; a 200 body that is not JSON behaves
identically and is folded in here), or a 200 reply whose decoded JSON body is
`env`. -/
inductive CandResp where
  | notFound
  | httpError (text : String)
  | connError (msg : String)
  | ok (env : Json)

/-- `result['candidates'][0]['content']['parts'][0]['text']` (main.py line 127),
with Python subscript semantics, requiring the final value to be a string (a
non-string has no `.replace`, raising `AttributeError`). -/
def envelopeText (env : Json) : Except PyExc String := do
  let c ← pySubscript env "candidates"
  let c0 ← pyIndexZero c
  let ct ← pySubscript c0 "content"
  let p ← pySubscript ct "parts"
  let p0 ← pyIndexZero p
  let t ← pySubscript p0 "text"
  match t with
  | .str s => pure s
  | _ => .error .attrError

/-- The error detail recorded in `last_error` for one failed candidate, preserving
which exception produced it: the inner `except (KeyError, IndexError,
json.JSONDecodeError)` re-raises as `ValueError("Invalid JSON structure: ...")`
(the malformed-output error), HTTP errors record the response text, and any other
exception records its message. -/
inductive FailDetail where
  | invalidStructure (e : PyExc)
  | httpText (t : String)
  | connMsg (m : String)
  | otherExc (e : PyExc)
deriving Repr, DecidableEq

/-- `str(e)` for a recorded `last_error` value, as interpolated into the
exhaustion message. -/
def failDetailStr : FailDetail → String
  | .invalidStructure e => "Invalid JSON structure: " ++ excMsg e
  | .httpText t => t
  | .connMsg m => m
  | .otherExc e => excMsg e

/-- Outcome of one iteration of the candidate loop (main.py lines 116-139):
return a parsed value, skip on 404 without touching `last_error`, or record a
failure detail and continue. -/
inductive StepRes where
  | success (v : Json)
  | skip
  | fail (d : FailDetail)

/-- One candidate's processing, main.py lines 116-139: 404 skips; an HTTP status
error records the response text; a transport error records its message; a 200
reply has its text extracted, cleaned, and fed to `json.loads` — success returns
the decoded value, while `KeyError` / `IndexError` / `JSONDecodeError` become the
`ValueError("Invalid JSON structure: ...")` detail and any other exception is
recorded as-is by the generic handler. -/
def candStep (r : CandResp) : StepRes :=
  match r with
  | .notFound => .skip
  | .httpError t => .fail (.httpText t)
  | .connError m => .fail (.connMsg m)
  | .ok env =>
    match envelopeText env with
    | .ok t =>
      match jsonLoads (cleanText t) with
      | some v => .success v
      | none => .fail (.invalidStructure .jsonDecodeError)
    | .error (.keyError k) => .fail (.invalidStructure (.keyError k))
    | .error .indexError => .fail (.invalidStructure .indexError)
    | .error e => .fail (.otherExc e)

/-- The gateway's failure value: the exhaustion error of main.py line 141,
carrying the final `last_error` (initially `None`). -/
inductive GwErr where
  | allFailed (last : Option FailDetail)
deriving Repr, DecidableEq

/-- The candidate loop of main.py lines 110-141, threading the `last_error`
accumulator, paired with the number of extraction requests issued (one per
candidate processed). -/
def runGateway : List CandResp → Option FailDetail → (Except GwErr Json) × Nat
  | [], last => (.error (.allFailed last), 0)
  | r :: rest, last =>
    match candStep r with
    | .success v => (.ok v, 1)
    | .skip => ((runGateway rest last).1, (runGateway rest last).2 + 1)
    | .fail d => ((runGateway rest (some d)).1, (runGateway rest (some d)).2 + 1)

/-- `extract_data_with_gemini_raw`, abstracted over the provider's per-candidate
responses (`resps`, aligned with `target_models`): the file bytes, path and prompt
only shape the outbound request, which the environment answers. -/
def extract_data_with_gemini_raw (resps : List CandResp) : (Except GwErr Json) × Nat :=
  runGateway resps none

/-- The failure detail a candidate would record, defined directly from its
response (`none` for a 404 skip or a success). -/
def candDetail (r : CandResp) : Option FailDetail :=
  match candStep r with
  | .fail d => some d
  | _ => none

/-- The last recorded error detail over a candidate list: the detail of the last
candidate that recorded one. -/
def lastDetail (resps : List CandResp) : Option FailDetail :=
  (resps.filterMap candDetail).getLast?

/-- A candidate attempt that does not succeed (404, HTTP error, transport error,
or unparseable/malformed reply). -/
def candFailsB (r : CandResp) : Bool :=
  match candStep r with
  | .success _ => false
  | _ => true

/-- The pydantic `WebhookPayload` model (main.py lines 32-37): pydantic validates
only that `record` is a dict (its contents are unchecked) and that the other
fields are present with the right types. -/
structure WebhookPayload where
  type : String
  table : String
  record : List (String × Json)
  schema_name : String
  old_record : Option (List (String × Json))

/-- Raw document bytes returned by the storage collaborator. -/
abbrev Bytes := List Nat

/-- Behavior of the external collaborators for one ingestion event: the storage
download keyed by cleaned path (`.error` = the collaborator raised), the
provider's response per candidate model, whether the primary and the secondary
`update(...).execute()` calls raise (and with what message), and
`datetime.now().date()` at status-resolution time. -/
structure Env where
  download : String → Except String Bytes
  candResps : List CandResp
  primaryUpdateExc : Option String
  secondaryUpdateExc : Option String
  today : YMD

/-- `download_file_from_supabase` (main.py lines 41-49): strip the `cois/` bucket
prefix and ask storage; any exception inside — including the `AttributeError` from
`.replace` when the path value is not a string — is caught and re-raised as
`HTTPException(500, "Storage Download Failed")`. -/
def download_file_from_supabase (env : Env) (file_path : Json) : Except PyExc Bytes :=
  match file_path with
  | .str p =>
    match env.download (replaceAllStr p "cois/" "") with
    | .ok b => .ok b
    | .error _ => .error (.httpException "Storage Download Failed")
  | _ => .error (.httpException "Storage Download Failed")

/-- One `..update(data).eq("id", id).execute()` attempt observed at the
persistence collaborator. -/
structure UpdateCall where
  table : String
  data : List (String × Json)
  idFilter : Json

/-- The JSON response body of the webhook endpoint: either
`{"status": "success", "policy_status": s}` or `{"status": "error", "message": m}`. -/
inductive Outcome where
  | success (policy_status : String)
  | error (message : String)

/-- What the webhook caller observes from `process_coi_webhook`: a returned
structured outcome, or an exception escaping the handler. -/
inductive WebhookResult where
  | returned (out : Outcome)
  | escaped (e : PyExc)

/-- Python `exp_date_str if exp_date_str else None` (main.py line 175). -/
def expStoredValue (expVal : Json) : Json :=
  if truthy expVal then expVal else .null

/-- The `update_data` dict of main.py lines 172-180. -/
def updateData (extractedKvs : List (String × Json)) (expVal : Json) (status : String) :
    List (String × Json) :=
  [("carrier_name", pyGet extractedKvs "insurer_name"),
   ("policy_number", .str "PENDING"),
   ("expiration_date", expStoredValue expVal),
   ("limit_amount", pyGet extractedKvs "general_liability_limit"),
   ("ocr_confidence_score", pyGet extractedKvs "confidence_score"),
   ("ocr_data", .obj extractedKvs),
   ("processing_status", .str status)]

/-- The body of the `try` block of `process_coi_webhook` (main.py lines 150-183):
download, extract, resolve status, persist, returning the resolved status; on any
exception, the exception together with the persistence calls already attempted.
`extracted_data.get(...)` requires a dict (`AttributeError` otherwise, since only
dicts among the decoded values have `.get`). -/
def tryBody (env : Env) (document_url : Json) (policy_id : Json) :
    Except (PyExc × List UpdateCall) (String × List UpdateCall) :=
  match download_file_from_supabase env document_url with
  | .error e => .error (e, [])
  | .ok _file_bytes =>
    match (extract_data_with_gemini_raw env.candResps).1 with
    | .error (.allFailed last) =>
      .error (.valueError ("All models failed. Last API response: " ++
        (match last with
         | none => "None"
         | some d => failDetailStr d)), [])
    | .ok extracted =>
      match extracted with
      | .obj kvs =>
        (match resolveStatus (pyGet kvs "policy_expiration_date") env.today with
         | .error e => .error (e, [])
         | .ok status =>
           match env.primaryUpdateExc with
           | none =>
             .ok (status,
               [⟨"policies",
                 updateData kvs (pyGet kvs "policy_expiration_date") status, policy_id⟩])
           | some m =>
             .error (.dbError m,
               [⟨"policies",
                 updateData kvs (pyGet kvs "policy_expiration_date") status, policy_id⟩]))
      | _ => .error (.attrError, [])

/-- The secondary best-effort error-marking update of main.py line 188. -/
def secondaryCall (policy_id : Json) : UpdateCall :=
  ⟨"policies", [("processing_status", .str "error")], policy_id⟩

/-- `process_coi_webhook` (main.py lines 143-191): `record['id']` and
`record['document_url']` are read before the `try` block, so a missing key
escapes as a `KeyError`; the `try` body drives download → extraction → status →
primary update; the `except Exception` handler attempts the secondary
error-marking update — whose own failure the bare `except: pass` swallows — and
returns the error-shaped response with `str(e)` of the original failure.  The
second component lists the persistence update attempts in order. -/
def process_coi_webhook (payload : WebhookPayload) (env : Env) :
    WebhookResult × List UpdateCall :=
  let record := payload.record
  match pyDictSubscript record "id" with
  | .error e => (.escaped e, [])
  | .ok policy_id =>
    match pyDictSubscript record "document_url" with
    | .error e => (.escaped e, [])
    | .ok document_url =>
      match tryBody env document_url policy_id with
      | .ok (status, calls) => (.returned (.success status), calls)
      | .error (exc, calls) =>
        let callsAfter :=
          match env.secondaryUpdateExc with
          | none => calls ++ [secondaryCall policy_id]
          | some _ => calls ++ [secondaryCall policy_id]
        (.returned (.error (excMsg exc)), callsAfter)

/-- An update attempt whose payload is exactly the secondary error-marking dict. -/
def isSecondaryData (c : UpdateCall) : Bool :=
  match c.data with
  | [("processing_status", .str "error")] => true
  | _ => false

/-- A row of the `policies` table as the scan reads it.  Expiration dates are
modelled as day indices (`Nat`), on which the datastore's date comparison is the
numeric order and `timedelta(days = n)` is `+ n`.  Nullable columns are
`Option`. -/
structure PolicyRow where
  id : Json
  carrier_name : Option String
  expiration_date : Option Nat
  processing_status : Option String
  vendor_id : Option Nat

/-- A row of the `vendors` table. -/
structure VendorRow where
  id : Nat
  company_name : Option String
  contact_email : Option String
deriving Repr, DecidableEq

/-- The datastore visible to the nag engine. -/
structure Db where
  policies : List PolicyRow
  vendors : List VendorRow

/-- The embedded `vendors(company_name, contact_email)` object of one scan result
row. -/
structure VendorInfo where
  company_name : Option String
  contact_email : Option String
deriving Repr, DecidableEq

/-- One scan result row: the policy columns plus the embedded vendor object
(`None` when the policy has no resolvable vendor). -/
structure JoinedPolicy where
  id : Json
  carrier_name : Option String
  expiration_date : Option Nat
  processing_status : Option String
  vendors : Option VendorInfo

/-- The foreign-key join requested by `vendors(company_name, contact_email)`:
follow `vendor_id` to the vendors table, embedding the contact columns. -/
def joinRow (db : Db) (r : PolicyRow) : JoinedPolicy :=
  { id := r.id
    carrier_name := r.carrier_name
    expiration_date := r.expiration_date
    processing_status := r.processing_status
    vendors := r.vendor_id.bind (fun vid =>
      (db.vendors.find? (fun v => v.id == vid)).map
        (fun v => ⟨v.company_name, v.contact_email⟩)) }

/-- PostgREST `eq` filter on a nullable text column: NULL matches nothing. -/
def pgEqStatus (v : String) (rows : List PolicyRow) : List PolicyRow :=
  rows.filter (fun r => r.processing_status == some v)

/-- PostgREST `lte` filter on the nullable date column: NULL matches nothing. -/
def pgLteExp (v : Nat) (rows : List PolicyRow) : List PolicyRow :=
  rows.filter (fun r =>
    match r.expiration_date with
    | some e => decide (e ≤ v)
    | none => false)

/-- PostgREST `gte` filter on the nullable date column: NULL matches nothing. -/
def pgGteExp (v : Nat) (rows : List PolicyRow) : List PolicyRow :=
  rows.filter (fun r =>
    match r.expiration_date with
    | some e => decide (v ≤ e)
    | none => false)

/-- `get_expiring_policies` (nag_engine.py lines 27-48): `target_date` is today
plus the lookahead; the query selects rows with `processing_status = 'active'`
and `today <= expiration_date <= target_date`, each joined with its vendor
contact; any query exception (`queryFails`) yields the empty list instead of
propagating. -/
def get_expiring_policies (db : Db) (queryFails : Bool) (today : Nat)
    (days_out : Nat := 30) : List JoinedPolicy :=
  let target_date := today + days_out
  if queryFails then []
  else
    ((pgGteExp today (pgLteExp target_date (pgEqStatus "active" db.policies))).map
      (joinRow db))

/-- What one `send_email` call resolves and formats (nag_engine.py lines 50-108):
the recipient address, the salutation target (`vendor_name`, which the dict lookup
may leave as Python `None`), and the message subject and body. -/
structure EmailSend where
  to_addr : String
  vendor_name : Option String
  subject : String
  body : String

/-- Rendering of a possibly-`None` Python value into an f-string. -/
def pyOptStr (v : Option String) : String :=
  match v with
  | some s => s
  | none => "None"

/-- `send_email` (nag_engine.py lines 50-108) up to the provider call: the
recipient is the vendor contact when the embedded vendor object exists and its
`contact_email` is truthy (non-null, non-empty), with the vendor's company name
as salutation target; otherwise the fixed fallback address with the generic
"Valued Vendor" salutation.  (`policy.get("carrier_name", "Unknown Carrier")`
only falls back when the key is absent, and a select-* row always carries the
column, so the stored value — possibly null — is used.) -/
def send_email (policy : JoinedPolicy) : EmailSend :=
  let carrier := policy.carrier_name
  let exp_date := policy.expiration_date
  let fallbackRecipient : String × Option String :=
    ("mlodic.blue@gmail.com", some "Valued Vendor")
  let target :=
    match policy.vendors with
    | some vendor_data =>
      (match vendor_data.contact_email with
       | some e => if e != "" then (e, vendor_data.company_name) else fallbackRecipient
       | none => fallbackRecipient)
    | none => fallbackRecipient
  { to_addr := target.1
    vendor_name := target.2
    subject := "ACTION REQUIRED: Insurance Certificate Expiring - " ++ pyOptStr carrier
    body := "Dear " ++ pyOptStr target.2 ++
      ",\n\nOur records indicate that your Commercial General Liability policy (" ++
      pyOptStr carrier ++ ")\nwill expire on " ++
      (match exp_date with
       | some e => toString e
       | none => "None") ++
      ".\n\nTo maintain your active vendor status and avoid payment holds, please upload\nyour renewed Certificate of Insurance to our secure portal immediately.\n\nPortal Link: https://the-liability-shield-face.onrender.com\n" }

/-- A provider success envelope whose single candidate reply carries the text `t`. -/
def mkEnvelope (t : String) : Json :=
  .obj [("candidates",
    .arr [.obj [("content", .obj [("parts", .arr [.obj [("text", .str t)]])])]])]

/-- Whether a decoded JSON value is a key-value mapping. -/
def isObjB : Json → Bool
  | .obj _ => true
  | _ => false

/-- A webhook payload whose record dict lacks the `id` key. -/
def payloadNoId : WebhookPayload :=
  ⟨"INSERT", "policies", [("document_url", .str "cois/p1.pdf")], "public", none⟩

/-- A well-formed webhook payload. -/
def payloadGood : WebhookPayload :=
  ⟨"INSERT", "policies",
   [("id", .str "P1"), ("document_url", .str "cois/p1.pdf")], "public", none⟩

/-- A payload sharing `payloadGood`'s record but differing in every other field. -/
def payloadOther : WebhookPayload :=
  ⟨"UPDATE", "other_table",
   [("id", .str "P1"), ("document_url", .str "cois/p1.pdf")], "private",
   some [("id", .str "OLD")]⟩

/-- A benign collaborator environment for concrete runs. -/
def envTrivial : Env :=
  { download := fun _ => .ok []
    candResps := []
    primaryUpdateExc := none
    secondaryUpdateExc := none
    today := ⟨2024, 1, 1⟩ }

/-- An environment whose storage download raises. -/
def envDownloadFails : Env :=
  { download := fun _ => .error "object not found"
    candResps := []
    primaryUpdateExc := none
    secondaryUpdateExc := none
    today := ⟨2024, 1, 1⟩ }

/-- An environment whose single candidate extracts a null expiration date. -/
def envNullExpiration : Env :=
  { download := fun _ => .ok [37]
    candResps :=
      [.ok (mkEnvelope "\x7b\"policy_expiration_date\": null, \"insurer_name\": \"Acme\"\x7d")]
    primaryUpdateExc := none
    secondaryUpdateExc := none
    today := ⟨2024, 6, 1⟩ }

/-- A concrete datastore for scan runs: with "today" = day 100 and a 30-day
horizon, the first policy (active, expiring day 119) is in range, the second is
rejected, the third expires past the horizon (day 144). -/
def dbW : Db :=
  { policies :=
      [⟨.str "P-near", some "Acme", some 119, some "active", some 1⟩,
       ⟨.str "P-rejected", some "Bcme", some 119, some "rejected", none⟩,
       ⟨.str "P-far", some "Ccme", some 144, some "active", none⟩]
    vendors := [⟨1, some "VendorCo", some "vendor@example.com"⟩] }

/-! ## Theorems -/

/-- Unfolding of the date-validation block on a nonempty string. -/
theorem resolveStatus_str_nonempty (s : String) (today : YMD) (hs : s ≠ "") :
    resolveStatus (.str s) today =
      (match parseYMD s with
       | some d => .ok (if ymdLt d today then "rejected" else "active")
       | none => .ok "error") := by
  simp only [resolveStatus, truthy]
  rw [if_pos (by simp [hs])]

/-- C2: the status resolution is a pure function of the extracted
expiration-date value and the current date.  An absent field (Python `None`,
i.e. `Json.null`) or a string that `strptime("%Y-%m-%d")` rejects resolves to
`"error"`; a string parsing to a date strictly before today resolves to
`"rejected"`; a string parsing to a date on or after today — including exactly
today — resolves to `"active"`. -/
theorem C2_status_resolution (s : String) (today : YMD) :
    resolveStatus .null today = .ok "error"
    ∧ (parseYMD s = none → resolveStatus (.str s) today = .ok "error")
    ∧ (∀ d, parseYMD s = some d → ymdLt d today = true →
        resolveStatus (.str s) today = .ok "rejected")
    ∧ (∀ d, parseYMD s = some d → ymdLt d today = false →
        resolveStatus (.str s) today = .ok "active")
    ∧ (parseYMD s = some today → resolveStatus (.str s) today = .ok "active") := by
  have hne : ∀ d, parseYMD s = some d → s ≠ "" := by
    intro d h hs
    subst hs
    simp [parseYMD] at h
  have hlt_self : ymdLt today today = false := by
    simp [ymdLt]
  refine ⟨rfl, ?_, ?_, ?_, ?_⟩
  · intro h
    by_cases hs : s = ""
    · subst hs; rfl
    · rw [resolveStatus_str_nonempty s today hs, h]
  · intro d h hlt
    rw [resolveStatus_str_nonempty s today (hne d h), h]
    simp [hlt]
  · intro d h hlt
    rw [resolveStatus_str_nonempty s today (hne d h), h]
    simp [hlt]
  · intro h
    rw [resolveStatus_str_nonempty s today (hne today h), h]
    simp [hlt_self]

/-- Witness for C2 at concrete inputs: "2024-06-01" against today = 2024-06-01
(the boundary ↦ `"active"`), "2000-01-01" against the same today (↦ `"rejected"`),
and the unparsable "06/01/2024" (↦ `"error"`). -/
theorem C2_status_resolution_witness :
    resolveStatus (.str "2024-06-01") ⟨2024, 6, 1⟩ = .ok "active"
    ∧ resolveStatus (.str "2000-01-01") ⟨2024, 6, 1⟩ = .ok "rejected"
    ∧ resolveStatus (.str "06/01/2024") ⟨2024, 6, 1⟩ = .ok "error" :=
  ⟨(C2_status_resolution "2024-06-01" ⟨2024, 6, 1⟩).2.2.2.2 (by decide),
   (C2_status_resolution "2000-01-01" ⟨2024, 6, 1⟩).2.2.1 ⟨2000, 1, 1⟩ (by decide) (by decide),
   (C2_status_resolution "06/01/2024" ⟨2024, 6, 1⟩).2.1 (by decide)⟩

/-- A prefix of not-found candidates is skipped: the loop proceeds past it,
adding one issued request per skipped candidate and leaving `last_error`
untouched. -/
theorem runGateway_notFound_front (pre rest : List CandResp) (last : Option FailDetail)
    (h : ∀ r ∈ pre, r = CandResp.notFound) :
    runGateway (pre ++ rest) last =
      ((runGateway rest last).1, (runGateway rest last).2 + pre.length) := by
  induction pre with
  | nil => simp
  | cons r pre ih =>
    have hr : r = CandResp.notFound := h r (List.mem_cons_self r pre)
    subst hr
    have ih2 := ih (fun x hx => h x (List.mem_cons_of_mem _ hx))
    have step : runGateway ((CandResp.notFound :: pre) ++ rest) last =
        ((runGateway (pre ++ rest) last).1, (runGateway (pre ++ rest) last).2 + 1) := rfl
    rw [step, ih2]
    refine Prod.ext rfl ?_
    show (runGateway rest last).2 + pre.length + 1 =
      (runGateway rest last).2 + (CandResp.notFound :: pre).length
    simp only [List.length_cons]
    omega

/-- C3: if candidates 1..k-1 each report not-found and candidate k's request
succeeds with a reply whose cleaned text parses, the gateway returns candidate
k's parsed result having issued exactly k requests — none to any later
candidate. -/
theorem C3_gateway_first_success (pre rest : List CandResp) (env : Json)
    (t : String) (v : Json)
    (hpre : ∀ r ∈ pre, r = CandResp.notFound)
    (htext : envelopeText env = .ok t)
    (hparse : jsonLoads (cleanText t) = some v) :
    extract_data_with_gemini_raw (pre ++ CandResp.ok env :: rest) =
      (.ok v, pre.length + 1) := by
  have hstep : candStep (CandResp.ok env) = .success v := by
    simp only [candStep, htext, hparse]
  unfold extract_data_with_gemini_raw
  rw [runGateway_notFound_front pre (CandResp.ok env :: rest) none hpre]
  simp only [runGateway, hstep]
  exact Prod.ext rfl (by omega)

/-- Witness for C3: one not-found candidate followed by a successful candidate
whose reply is a fenced JSON object; the gateway returns the parsed object after
exactly two requests, with a third candidate left untouched. -/
theorem C3_gateway_first_success_witness :
    extract_data_with_gemini_raw
        [CandResp.notFound,
         CandResp.ok (mkEnvelope "```json\n\x7b\"insurer_name\": \"Acme\"\x7d\n```"),
         CandResp.httpError "never reached"] =
      (.ok (.obj [("insurer_name", .str "Acme")]), 2) := by
  have h := C3_gateway_first_success [CandResp.notFound]
    [CandResp.httpError "never reached"]
    (mkEnvelope "```json\n\x7b\"insurer_name\": \"Acme\"\x7d\n```")
    "```json\n\x7b\"insurer_name\": \"Acme\"\x7d\n```"
    (.obj [("insurer_name", .str "Acme")])
    (by intro r hr; simpa using hr)
    (by rfl)
    (by rfl)
  simpa using h

/-- `getLast?` of a cons, expressed with `Option.or`. -/
theorem getLast?_cons_or {α : Type} (x : α) (l : List α) :
    (x :: l).getLast? = Option.or l.getLast? (some x) := by
  cases l with
  | nil => rfl
  | cons y m =>
    rw [List.getLast?_cons_cons]
    cases h : (y :: m).getLast? with
    | none => simp [List.getLast?_cons_cons] at h
    | some z => simp [Option.or]

/-- When every candidate fails, the loop reaches exhaustion having issued one
request per candidate, and the final `last_error` is the last recorded detail,
falling back to the incoming accumulator when no candidate recorded one. -/
theorem runGateway_all_fail (resps : List CandResp) (last : Option FailDetail)
    (h : ∀ r ∈ resps, candFailsB r = true) :
    runGateway resps last =
      (.error (.allFailed (Option.or (lastDetail resps) last)), resps.length) := by
  induction resps generalizing last with
  | nil => simp [runGateway, lastDetail]
  | cons r rest ih =>
    have hr : candFailsB r = true := h r (List.mem_cons_self r rest)
    have ih2 := fun l => ih l (fun x hx => h x (List.mem_cons_of_mem _ hx))
    have hlast : lastDetail (r :: rest) =
        Option.or (lastDetail rest) (candDetail r) := by
      unfold lastDetail
      cases hc : candDetail r with
      | none => simp [List.filterMap_cons, hc]
      | some d => simp [List.filterMap_cons, hc, getLast?_cons_or]
    unfold candFailsB at hr
    unfold candDetail at hlast
    cases hstep : candStep r with
    | success v => rw [hstep] at hr; simp at hr
    | skip =>
      rw [hstep] at hlast
      simp only [runGateway, hstep, ih2, List.length_cons, hlast]
      exact Prod.ext (by simp) rfl
    | fail d =>
      rw [hstep] at hlast
      simp only [runGateway, hstep, ih2, List.length_cons, hlast]
      exact Prod.ext (by simp [Option.or_assoc]) rfl

/-- C4: when every candidate fails (any mix of not-found, HTTP/transport error,
or unparseable reply), the gateway raises the exhaustion error after issuing
exactly one request per candidate, and that error carries the last recorded
error detail (`None` when only not-found candidates occurred, which record no
detail). -/
theorem C4_gateway_exhaustion (resps : List CandResp)
    (h : ∀ r ∈ resps, candFailsB r = true) :
    extract_data_with_gemini_raw resps =
      (.error (.allFailed (lastDetail resps)), resps.length) := by
  unfold extract_data_with_gemini_raw
  rw [runGateway_all_fail resps none h]
  simp

/-- Witness for C4: a not-found candidate, an HTTP 500, a transport failure and
a malformed reply all fail; the gateway is exhausted after exactly four requests
and carries the malformed-output detail of the last candidate. -/
theorem C4_gateway_exhaustion_witness :
    extract_data_with_gemini_raw
        [CandResp.notFound, CandResp.httpError "quota exceeded",
         CandResp.connError "timeout", CandResp.ok (mkEnvelope "not json at all")] =
      (.error (.allFailed (some (.invalidStructure .jsonDecodeError))), 4) := by
  have h := C4_gateway_exhaustion
    [CandResp.notFound, CandResp.httpError "quota exceeded",
     CandResp.connError "timeout", CandResp.ok (mkEnvelope "not json at all")]
    (by
      intro r hr
      simp only [List.mem_cons, List.not_mem_nil, or_false] at hr
      rcases hr with h1 | h1 | h1 | h1 <;> subst h1 <;> rfl)
  rw [h]
  rfl

/-- C5 counterexample: a reply whose cleaned text is valid JSON but not a
key-value mapping — here the list `[1, 2]` — is returned by the gateway as a
successful extraction result, not rejected with a malformed-output error as the
claim states. -/
theorem C5_counterexample :
    extract_data_with_gemini_raw [CandResp.ok (mkEnvelope "[1, 2]")] =
      (.ok (.arr [.num 1 0, .num 2 0]), 1)
    ∧ isObjB (.arr [.num 1 0, .num 2 0]) = false :=
  ⟨rfl, rfl⟩

/-- C5 amended: a reply whose cleaned text is not valid JSON at all fails with
the malformed-output (`Invalid JSON structure`) error for that candidate, as
does a success envelope whose expected shape is broken by a missing key or an
empty candidate list; however, cleaned text that is valid JSON of a non-mapping
kind is returned as the result rather than rejected (see the counterexample). -/
theorem C5_validator_malformed (env : Json) (t : String) :
    (envelopeText env = .ok t → jsonLoads (cleanText t) = none →
      candStep (.ok env) = .fail (.invalidStructure .jsonDecodeError))
    ∧ (∀ k, envelopeText env = .error (.keyError k) →
      candStep (.ok env) = .fail (.invalidStructure (.keyError k)))
    ∧ (envelopeText env = .error .indexError →
      candStep (.ok env) = .fail (.invalidStructure .indexError)) := by
  refine ⟨?_, ?_, ?_⟩
  · intro h1 h2
    simp only [candStep, h1, h2]
  · intro k h1
    simp only [candStep, h1]
  · intro h1
    simp only [candStep, h1]

/-- Witness for the amended C5: unparseable text, an envelope missing the
`candidates` key, and an empty candidate list all fail with the
malformed-output error. -/
theorem C5_validator_malformed_witness :
    candStep (CandResp.ok (mkEnvelope "not json")) =
      .fail (.invalidStructure .jsonDecodeError)
    ∧ candStep (CandResp.ok (.obj [])) =
      .fail (.invalidStructure (.keyError "candidates"))
    ∧ candStep (CandResp.ok (.obj [("candidates", .arr [])])) =
      .fail (.invalidStructure .indexError) :=
  ⟨(C5_validator_malformed (mkEnvelope "not json") "not json").1 rfl rfl,
   (C5_validator_malformed (.obj []) "").2.1 "candidates" rfl,
   (C5_validator_malformed (.obj [("candidates", .arr [])]) "").2.2 rfl⟩

/-- C1 counterexample: a payload accepted by the endpoint (pydantic only checks
that `record` is a dict) whose record lacks the `id` key makes `record['id']` —
read before the `try` block — raise a `KeyError` that escapes the handler, so
the caller does not receive a structured outcome. -/
theorem C1_counterexample :
    (process_coi_webhook payloadNoId envTrivial).1 = .escaped (.keyError "id") :=
  rfl

/-- C1 amended: whenever the record dict does contain both `id` and
`document_url`, the handler returns a structured outcome — success-shaped or
error-shaped — for every collaborator behavior, and no exception escapes; the
unconditional claim fails only on records lacking one of those two keys. -/
theorem C1_structured_outcome (payload : WebhookPayload) (env : Env)
    (pid url : Json)
    (hid : pyDictSubscript payload.record "id" = .ok pid)
    (hurl : pyDictSubscript payload.record "document_url" = .ok url) :
    ∃ out, (process_coi_webhook payload env).1 = .returned out := by
  simp only [process_coi_webhook, hid, hurl]
  cases htb : tryBody env url pid with
  | ok p =>
    obtain ⟨status, calls⟩ := p
    exact ⟨.success status, by simp [htb]⟩
  | error p =>
    obtain ⟨exc, calls⟩ := p
    exact ⟨.error (excMsg exc), by cases h2 : env.secondaryUpdateExc <;> simp [htb, h2]⟩

/-- Witness for the amended C1 at a concrete payload and environment. -/
theorem C1_structured_outcome_witness :
    ∃ out, (process_coi_webhook payloadGood envTrivial).1 = .returned out :=
  C1_structured_outcome payloadGood envTrivial (.str "P1") (.str "cois/p1.pdf") rfl rfl

/-- C10: the handler reads only the payload's `record`; two accepted payloads
agreeing on the record but differing arbitrarily in event type, table name,
schema name, or the optional previous record produce identical behavior — the
same persistence calls and the same returned outcome — against any collaborator
environment. -/
theorem C10_payload_noninterference (p1 p2 : WebhookPayload) (env : Env)
    (h : p1.record = p2.record) :
    process_coi_webhook p1 env = process_coi_webhook p2 env := by
  unfold process_coi_webhook
  rw [h]

/-- Witness for C10: two payloads sharing a record but differing in type,
table, schema and previous record are processed identically. -/
theorem C10_payload_noninterference_witness :
    payloadGood.type ≠ payloadOther.type
    ∧ payloadGood.table ≠ payloadOther.table
    ∧ payloadGood.schema_name ≠ payloadOther.schema_name
    ∧ payloadGood.old_record ≠ payloadOther.old_record
    ∧ process_coi_webhook payloadGood envTrivial =
        process_coi_webhook payloadOther envTrivial :=
  ⟨by decide, by decide, by decide, by simp [payloadGood, payloadOther],
   C10_payload_noninterference payloadGood payloadOther envTrivial rfl⟩

/-- A string rejected by `strptime("%Y-%m-%d")` resolves to status `"error"`. -/
theorem resolveStatus_unparsable (s : String) (today : YMD)
    (h : parseYMD s = none) :
    resolveStatus (.str s) today = .ok "error" := by
  by_cases hs : s = ""
  · subst hs; rfl
  · rw [resolveStatus_str_nonempty s today hs, h]

/-- C6: when download and extraction succeed but the extracted expiration date is
absent (null) or an unparsable string, the record is persisted via the full
`update_data` — carrier name, limit, confidence and raw payload still written —
with status `"error"`, and the call returns the logical-success outcome
`{status: "success", policy_status: "error"}`. -/
theorem C6_missing_expiration (payload : WebhookPayload) (env : Env)
    (pid url : Json) (bs : Bytes) (kvs : List (String × Json))
    (hid : pyDictSubscript payload.record "id" = .ok pid)
    (hurl : pyDictSubscript payload.record "document_url" = .ok url)
    (hdl : download_file_from_supabase env url = .ok bs)
    (hgw : (extract_data_with_gemini_raw env.candResps).1 = .ok (.obj kvs))
    (hexp : pyGet kvs "policy_expiration_date" = .null
      ∨ ∃ s, pyGet kvs "policy_expiration_date" = .str s ∧ parseYMD s = none)
    (hprim : env.primaryUpdateExc = none) :
    process_coi_webhook payload env =
      (.returned (.success "error"),
       [⟨"policies",
         updateData kvs (pyGet kvs "policy_expiration_date") "error", pid⟩]) := by
  have hstat : resolveStatus (pyGet kvs "policy_expiration_date") env.today =
      .ok "error" := by
    rcases hexp with h | ⟨s, hs, hp⟩
    · rw [h]; rfl
    · rw [hs]; exact resolveStatus_unparsable s env.today hp
  simp only [process_coi_webhook, hid, hurl, tryBody, hdl, hgw, hstat, hprim]

/-- Witness for C6: a concrete event whose extraction yields a null expiration
date is persisted with status `"error"` and reported as overall success. -/
theorem C6_missing_expiration_witness :
    process_coi_webhook payloadGood envNullExpiration =
      (.returned (.success "error"),
       [⟨"policies",
         updateData [("policy_expiration_date", .null), ("insurer_name", .str "Acme")]
           .null "error", .str "P1"⟩]) :=
  C6_missing_expiration payloadGood envNullExpiration (.str "P1") (.str "cois/p1.pdf")
    [37] [("policy_expiration_date", .null), ("insurer_name", .str "Acme")]
    rfl rfl rfl rfl (Or.inl rfl) rfl

/-- The `try` body never reads the secondary update's behavior. -/
theorem tryBody_secondary_irrelevant (env : Env) (se : Option String)
    (url pid : Json) :
    tryBody { env with secondaryUpdateExc := se } url pid = tryBody env url pid := by
  cases env
  rfl

/-- The persistence calls recorded by a failing `try` body never carry the
secondary error-marking payload: either no update was attempted, or only the
primary seven-field `update_data`. -/
theorem tryBody_error_calls (env : Env) (url pid : Json) (exc : PyExc)
    (calls : List UpdateCall)
    (h : tryBody env url pid = .error (exc, calls)) :
    calls.countP isSecondaryData = 0 := by
  unfold tryBody at h
  repeat' split at h
  all_goals first
    | (injection h with h'
       injection h' with h1 h2
       subst h2
       rfl)
    | injection h

/-- C7: whenever the `try` body fails — storage failure, extraction exhaustion,
status-resolution fault, or primary persistence failure — the handler attempts
exactly one secondary error-marking update (regardless of whether that attempt
itself raises: the bare `except: pass` swallows it and the response is identical
for every secondary outcome), and the caller receives the error outcome carrying
`str(e)` of the original failure. -/
theorem C7_failure_secondary (payload : WebhookPayload) (env : Env)
    (pid url : Json) (exc : PyExc) (calls : List UpdateCall)
    (hid : pyDictSubscript payload.record "id" = .ok pid)
    (hurl : pyDictSubscript payload.record "document_url" = .ok url)
    (htb : tryBody env url pid = .error (exc, calls)) :
    (∀ se, process_coi_webhook payload { env with secondaryUpdateExc := se } =
        (.returned (.error (excMsg exc)), calls ++ [secondaryCall pid]))
    ∧ (calls ++ [secondaryCall pid]).countP isSecondaryData = 1 := by
  constructor
  · intro se
    have htb2 : tryBody { env with secondaryUpdateExc := se } url pid =
        .error (exc, calls) := by
      rw [tryBody_secondary_irrelevant env se url pid, htb]
    simp only [process_coi_webhook, hid, hurl, htb2]
    cases se <;> rfl
  · rw [List.countP_append, tryBody_error_calls env url pid exc calls htb]
    rfl

/-- Witness for C7: a storage failure leads to exactly one secondary
error-marking attempt whose own configured failure is swallowed, and the caller
receives the original storage-failure message. -/
theorem C7_failure_secondary_witness :
    process_coi_webhook payloadGood
        { envDownloadFails with secondaryUpdateExc := some "db down" } =
      (.returned (.error "500: Storage Download Failed"),
       [secondaryCall (.str "P1")])
    ∧ ([] ++ [secondaryCall (.str "P1")]).countP isSecondaryData = 1 :=
  ⟨(C7_failure_secondary payloadGood envDownloadFails (.str "P1")
      (.str "cois/p1.pdf") (.httpException "Storage Download Failed") []
      rfl rfl rfl).1 (some "db down"),
   (C7_failure_secondary payloadGood envDownloadFails (.str "P1")
      (.str "cois/p1.pdf") (.httpException "Storage Download Failed") []
      rfl rfl rfl).2⟩

/-- C8: the scan returns exactly the rows whose status is `active` and whose
expiration date lies in the closed interval from today through today plus the
horizon — both endpoints included, NULL dates excluded — each joined with its
vendor contact when one resolves; and a query failure yields the empty result
set instead of propagating. -/
theorem C8_scanner (db : Db) (today h : Nat) :
    (∀ jp, jp ∈ get_expiring_policies db false today h ↔
      ∃ r, r ∈ db.policies ∧ jp = joinRow db r
        ∧ r.processing_status = some "active"
        ∧ ∃ e, r.expiration_date = some e ∧ today ≤ e ∧ e ≤ today + h)
    ∧ get_expiring_policies db true today h = [] := by
  constructor
  · intro jp
    simp only [get_expiring_policies, Bool.false_eq_true, if_false, List.mem_map,
      pgGteExp, pgLteExp, pgEqStatus, List.mem_filter]
    constructor
    · rintro ⟨r, ⟨⟨⟨hr, hstat⟩, hlte⟩, hgte⟩, hjp⟩
      refine ⟨r, hr, hjp.symm, by simpa using hstat, ?_⟩
      cases he : r.expiration_date with
      | none => rw [he] at hlte; simp at hlte
      | some e =>
        rw [he] at hlte hgte
        exact ⟨e, rfl, by simpa using hgte, by simpa using hlte⟩
    · rintro ⟨r, hr, hjp, hstat, e, he, h1, h2⟩
      exact ⟨r, ⟨⟨⟨hr, by simp [hstat]⟩, by simp [he, h2]⟩, by simp [he, h1]⟩, hjp.symm⟩
  · rfl

/-- Witness for C8: in the concrete store `dbW` with today = day 100 and a
30-day horizon, the in-range active policy is returned (joined with its vendor),
while a query failure returns nothing. -/
theorem C8_scanner_witness :
    joinRow dbW ⟨.str "P-near", some "Acme", some 119, some "active", some 1⟩ ∈
      get_expiring_policies dbW false 100 30
    ∧ get_expiring_policies dbW true 100 30 = [] :=
  ⟨((C8_scanner dbW 100 30).1 _).mpr
      ⟨⟨.str "P-near", some "Acme", some 119, some "active", some 1⟩,
       List.mem_cons_self _ _, rfl, rfl, 119, rfl, by omega, by omega⟩,
   (C8_scanner dbW 100 30).2⟩

/-- C9: the notifier resolves the recipient to the vendor contact's non-empty
email with the vendor's company name as salutation target; with no linked
vendor, a null email, or an empty email, it resolves to the fixed fallback
operator address with the generic "Valued Vendor" salutation. -/
theorem C9_notifier_recipient (p : JoinedPolicy) :
    (∀ vd e, p.vendors = some vd → vd.contact_email = some e → e ≠ "" →
      (send_email p).to_addr = e ∧ (send_email p).vendor_name = vd.company_name)
    ∧ (p.vendors = none →
      (send_email p).to_addr = "mlodic.blue@gmail.com"
      ∧ (send_email p).vendor_name = some "Valued Vendor")
    ∧ (∀ vd, p.vendors = some vd → vd.contact_email = none →
      (send_email p).to_addr = "mlodic.blue@gmail.com"
      ∧ (send_email p).vendor_name = some "Valued Vendor")
    ∧ (∀ vd, p.vendors = some vd → vd.contact_email = some "" →
      (send_email p).to_addr = "mlodic.blue@gmail.com"
      ∧ (send_email p).vendor_name = some "Valued Vendor") := by
  refine ⟨?_, ?_, ?_, ?_⟩
  · intro vd e h1 h2 h3
    constructor <;> simp [send_email, h1, h2, h3]
  · intro h1
    constructor <;> simp [send_email, h1]
  · intro vd h1 h2
    constructor <;> simp [send_email, h1, h2]
  · intro vd h1 h2
    constructor <;> simp [send_email, h1, h2]

/-- Witness for C9: a vendor contact with a non-empty email receives the mail
with its company name; a policy with no vendor, and one whose contact email is
empty, fall back to the operator address and the generic salutation. -/
theorem C9_notifier_recipient_witness :
    (send_email ⟨.str "P1", some "Acme", some 119, some "active",
        some ⟨some "VendorCo", some "vendor@example.com"⟩⟩).to_addr =
      "vendor@example.com"
    ∧ (send_email ⟨.str "P1", some "Acme", some 119, some "active",
        some ⟨some "VendorCo", some "vendor@example.com"⟩⟩).vendor_name =
      some "VendorCo"
    ∧ (send_email ⟨.str "P2", some "Bcme", some 119, some "active", none⟩).to_addr =
      "mlodic.blue@gmail.com"
    ∧ (send_email ⟨.str "P3", some "Ccme", some 119, some "active",
        some ⟨some "GhostCo", some ""⟩⟩).to_addr =
      "mlodic.blue@gmail.com"
    ∧ (send_email ⟨.str "P3", some "Ccme", some 119, some "active",
        some ⟨some "GhostCo", some ""⟩⟩).vendor_name =
      some "Valued Vendor" :=
  ⟨((C9_notifier_recipient _).1 ⟨some "VendorCo", some "vendor@example.com"⟩
      "vendor@example.com" rfl rfl (by decide)).1,
   ((C9_notifier_recipient _).1 ⟨some "VendorCo", some "vendor@example.com"⟩
      "vendor@example.com" rfl rfl (by decide)).2,
   ((C9_notifier_recipient _).2.1 rfl).1,
   ((C9_notifier_recipient _).2.2.2 ⟨some "GhostCo", some ""⟩ rfl rfl).1,
   ((C9_notifier_recipient _).2.2.2 ⟨some "GhostCo", some ""⟩ rfl rfl).2⟩

end COI
